import Mathlib

/-!
Shallow embedding of the content-risk aggregation engine found in
apps/api/src/services/content-analyzer.ts, together with the
adapter-level computation of critical flags found in the OpenAI
moderation integration module.

JavaScript numbers are modelled as exact rationals.  Two places in the
source escape finite arithmetic and are modelled explicitly:

* Math.max over an empty spread yields -Infinity (this happens in
  calculateRiskScore when the moderation adapter failed and its scores
  object is empty); the type JSNum carries that value.
* the division 0/0 in the conversation-level mean yields NaN (this
  happens in analyzeConversation on an empty message list); the result
  is modelled as Option with none standing for NaN.

Only the fields of the adapter results that the aggregator reads are
kept: perspectiveResult.highestScore and perspectiveResult.flaggedCategories,
and openaiResult.categories, the list of values of openaiResult.scores
(already mapped so that every non-number value became 0, as the source
does), and openaiResult.criticalFlags.  The fields flagged and riskLevel
of the moderation result are never read by the aggregator and are omitted.
-/

namespace SafeMind

/-- Dedicated risk level enumeration for low, medium, high, critical. -/
inductive RiskLevel where
  | low
  | medium
  | high
  | critical
deriving DecidableEq, Repr

/-- Numeric rank of a risk level, used only to state monotonicity. -/
def RiskLevel.rank : RiskLevel → ℕ
  | .low => 0
  | .medium => 1
  | .high => 2
  | .critical => 3

/-- Sentiment trend enumeration for improving, declining, stable. -/
inductive Trend where
  | improving
  | declining
  | stable
deriving DecidableEq, Repr

/-- A JavaScript number that may be -Infinity.  Every other value that
occurs in the aggregator is finite. -/
inductive JSNum where
  | negInf
  | num (q : ℚ)
deriving DecidableEq

/-- Math.max over the spread of a list of finite numbers.  In
JavaScript, Math.max() with no arguments returns -Infinity; with
arguments it returns the largest. -/
def jsMaxList (l : List ℚ) : JSNum :=
  l.foldr (fun q acc =>
    match acc with
    | .negInf => .num q
    | .num m => .num (max q m)) .negInf

/-- Multiplication by a strictly positive finite constant.  In
JavaScript, -Infinity times a positive finite number is -Infinity.  The
source only multiplies by 100 and by the weight 0.4, both positive. -/
def JSNum.scalePos (c : ℚ) : JSNum → JSNum
  | .negInf => .negInf
  | .num q => .num (q * c)

/-- Addition of a finite number.  In JavaScript, adding a finite number
to -Infinity gives -Infinity. -/
def JSNum.addFin (q : ℚ) : JSNum → JSNum
  | .negInf => .negInf
  | .num m => .num (q + m)

/-- Math.min(100, Math.max(0, x)), the final clamp of
calculateRiskScore.  Math.max(0, -Infinity) is 0, so the clamp of
-Infinity is 0. -/
def jsClamp0100 : JSNum → ℚ
  | .negInf => 0
  | .num q => min 100 (max 0 q)

/-- A lexicon match as pushed by detectKeywords: a plain term for a
mental-health concern keyword, or a term carrying the bracketed
CRITICAL marker for a suicidal-ideation keyword.  The source encodes
the marker as a string prefix on the pushed match. -/
inductive KwMatch where
  | concern (term : String)
  | critical (term : String)
deriving DecidableEq

/-- The test k.includes of the bracketed CRITICAL marker performed in
calculateRiskScore.  It is true exactly for matches pushed from the
suicidal-ideation set, since no lexicon term contains the marker
itself. -/
def KwMatch.isCritical : KwMatch → Bool
  | .concern _ => false
  | .critical _ => true

/-- The local keywordScore of calculateRiskScore: 100 when some match
carries the CRITICAL marker, otherwise 20 per match with no cap. -/
def keywordScore (keywords : List KwMatch) : ℚ :=
  if keywords.any KwMatch.isCritical then 100 else (keywords.length : ℚ) * 20

/-- calculateRiskScore.  perspectiveHighest is data.perspective.highestScore,
openaiScoreValues is Object.values(data.openai.scores) with non-number
values already mapped to 0, keywords is data.keywords, sentiment is
data.sentiment.  The composite is the weighted sum with weights 0.3,
0.4, 0.2, 0.1, then Math.min(100, Math.max(0, composite)). -/
def calculateRiskScore (perspectiveHighest : ℚ) (openaiScoreValues : List ℚ)
    (keywords : List KwMatch) (sentiment : ℚ) : ℚ :=
  let perspectiveScore := perspectiveHighest * 100
  let openaiScore := (jsMaxList openaiScoreValues).scalePos 100
  let sentimentScore := (1 - sentiment) * 50
  jsClamp0100 ((openaiScore.scalePos (4 / 10)).addFin
    (perspectiveScore * (3 / 10) + keywordScore keywords * (2 / 10) +
      sentimentScore * (1 / 10)))

/-- determineRiskLevel: critical when there is any critical flag or the
score is at least 80, else high at 60, medium at 40, low below. -/
def determineRiskLevel (score : ℚ) (criticalFlags : List String) : RiskLevel :=
  if 0 < criticalFlags.length ∨ 80 ≤ score then .critical
  else if 60 ≤ score then .high
  else if 40 ≤ score then .medium
  else .low

/-- The fixed critical-category list of the OpenAI moderation adapter. -/
def criticalCategories : List String :=
  ["self-harm/intent", "self-harm/instructions", "violence/graphic",
   "harassment/threatening", "sexual/minors"]

/-- criticalFlags as computed by moderateText on a successful response:
the reported categories filtered by membership in the fixed
critical-category list. -/
def criticalFlagsOf (categories : List String) : List String :=
  categories.filter (fun c => criticalCategories.contains c)

/-- The part of the Perspective adapter result read by the aggregator. -/
structure PerspectiveResult where
  highestScore : ℚ
  flaggedCategories : List String
deriving DecidableEq

/-- The part of the OpenAI moderation adapter result read by the
aggregator.  scoreValues is the list of values of the scores object
with non-number values mapped to 0; it is empty exactly when the
adapter failed and the fallback substituted an empty scores object. -/
structure OpenAIResult where
  categories : List String
  scoreValues : List ℚ
  criticalFlags : List String
deriving DecidableEq

/-- The six boolean safety flags. -/
structure Flags where
  toxicity : Bool
  selfHarm : Bool
  violence : Bool
  hate : Bool
  sexual : Bool
  mentalHealthConcern : Bool
deriving DecidableEq

/-- The first block of suggested actions, pushed when selfHarm is set. -/
def crisisActions : List String :=
  ["IMMEDIATE: Contact crisis intervention services",
   "Notify parent/guardian immediately",
   "Provide crisis hotline resources"]

/-- The second block of suggested actions, pushed when violence is set. -/
def violenceActions : List String :=
  ["Assess immediate danger to self or others",
   "Notify appropriate authorities if threat detected"]

/-- The third block of suggested actions, pushed when
mentalHealthConcern is set. -/
def mentalHealthActions : List String :=
  ["Consider reaching out to mental health resources",
   "Monitor conversation closely"]

/-- The fourth block of suggested actions, pushed when the risk level
is critical or high. -/
def monitoringActions : List String :=
  ["Send alert to trusted contacts",
   "Increase monitoring frequency"]

/-- generateSuggestedActions: four independent conditional pushes onto
an initially empty array, in the fixed source order. -/
def generateSuggestedActions (flags : Flags) (riskLevel : RiskLevel) : List String :=
  let actions : List String := []
  let actions := if flags.selfHarm then actions ++ crisisActions else actions
  let actions := if flags.violence then actions ++ violenceActions else actions
  let actions := if flags.mentalHealthConcern then actions ++ mentalHealthActions else actions
  let actions :=
    if riskLevel == .critical || riskLevel == .high then actions ++ monitoringActions
    else actions
  actions

/-- The per-message analysis result.  The timestamp, the echoed text and
the raw adapter payloads kept under details are omitted; the fields the
aggregation logic computes are all present. -/
structure AnalysisResult where
  riskScore : ℚ
  riskLevel : RiskLevel
  categories : List String
  flags : Flags
  keywords : List KwMatch
  sentiment : ℚ
  requiresAlert : Bool
  suggestedActions : List String
deriving DecidableEq

/-- analyzeMessage after the concurrent join: the pure composition of
the four sub-results into an AnalysisResult. -/
def analyzeMessage (p : PerspectiveResult) (o : OpenAIResult)
    (kw : List KwMatch) (sentiment : ℚ) : AnalysisResult :=
  let riskScore := calculateRiskScore p.highestScore o.scoreValues kw sentiment
  let riskLevel := determineRiskLevel riskScore o.criticalFlags
  let flags : Flags :=
    { toxicity := decide ((7 : ℚ) / 10 < p.highestScore)
      selfHarm := o.categories.contains "self-harm/intent" ||
        o.categories.contains "self-harm/instructions"
      violence := o.categories.contains "violence" ||
        o.categories.contains "violence/graphic"
      hate := o.categories.contains "hate" ||
        o.categories.contains "hate/threatening"
      sexual := o.categories.contains "sexual" ||
        o.categories.contains "sexual/minors"
      mentalHealthConcern := decide (0 < kw.length) }
  let categories := p.flaggedCategories ++ o.categories
  let requiresAlert :=
    riskLevel == RiskLevel.critical || riskLevel == RiskLevel.high || flags.selfHarm
  { riskScore := riskScore
    riskLevel := riskLevel
    categories := categories
    flags := flags
    keywords := kw
    sentiment := sentiment
    requiresAlert := requiresAlert
    suggestedActions := generateSuggestedActions flags riskLevel }

/-- The fixed positive-polarity word list of analyzeSentiment. -/
def positiveWords : List String :=
  ["happy", "good", "great", "better", "hope", "love", "joy"]

/-- The fixed negative-polarity word list of analyzeSentiment. -/
def negativeWords : List String :=
  ["sad", "bad", "worse", "hate", "hurt", "pain", "terrible"]

/-- analyzeSentiment, parameterized by the substring-containment test of
the case-folded text: contains w is normalized.includes(w).  Each
positive word present adds 0.1, each negative word present subtracts
0.1, and the total is clamped as Math.max(-1, Math.min(1, score)). -/
def analyzeSentiment (contains : String → Bool) : ℚ :=
  let score :=
    (positiveWords.countP contains : ℚ) * (1 / 10) -
      (negativeWords.countP contains : ℚ) * (1 / 10)
  max (-1) (min 1 score)

/-- The conversation-level mean risk score, reduce of the scores divided
by the length.  On an empty conversation the source divides 0 by 0,
which is NaN in JavaScript; none models that NaN. -/
def overallRiskScore (scores : List ℚ) : Option ℚ :=
  if scores.length = 0 then none
  else some (scores.sum / (scores.length : ℚ))

/-- JavaScript scores.slice(-3): the last three elements, or the whole
list when it is shorter.  Nat subtraction truncates at 0 exactly as the
negative index clamps. -/
def recentWindow (l : List ℚ) : List ℚ := l.drop (l.length - 3)

/-- JavaScript scores.slice(-6, -3): the up-to-three elements
immediately before the last three. -/
def olderWindow (l : List ℚ) : List ℚ := (l.take (l.length - 3)).drop (l.length - 6)

/-- detectEscalation: false below three scores or when the older window
is empty, else compare the recent average against 1.3 times the older
average. -/
def detectEscalation (scores : List ℚ) : Bool :=
  if scores.length < 3 then false
  else
    let recent := recentWindow scores
    let older := olderWindow scores
    if older.length = 0 then false
    else decide (older.sum / (older.length : ℚ) * (13 / 10) <
      recent.sum / (recent.length : ℚ))

/-- analyzeSentimentTrend: stable below three sentiments, else both
window sums are divided by the constant 3 and the averages compared
against the 1.2 and 0.8 factors. -/
def analyzeSentimentTrend (sentiments : List ℚ) : Trend :=
  if sentiments.length < 3 then .stable
  else
    let recentAvg := (recentWindow sentiments).sum / 3
    let olderAvg := (olderWindow sentiments).sum / 3
    if olderAvg * (12 / 10) < recentAvg then .improving
    else if recentAvg < olderAvg * (8 / 10) then .declining
    else .stable

/-- C1: in the source, a failed moderation adapter leaves an empty
scores object, Math.max over its (empty) values is -Infinity, and the
whole composite collapses to 0 after clamping — here with
highestScore 1, no keywords and sentiment 0 the score is 0, whereas the
same signals with an explicit all-zero moderation score list give the
value 35 = 0.3·100 + 0.2·0 + 0.1·50 that the failure semantics call
for. -/
theorem classifierB_failure_zeroes_composite :
    calculateRiskScore 1 [] [] 0 = 0 ∧ calculateRiskScore 1 [0] [] 0 = 35 := by
  refine ⟨rfl, ?_⟩
  have h0 : jsMaxList [0] = JSNum.num 0 := rfl
  norm_num [calculateRiskScore, h0, keywordScore, jsClamp0100,
    JSNum.scalePos, JSNum.addFin, min_def, max_def]

/-- C3 counterexample: six concern matches and no critical match give
keywordScore 120, not the capped value 100 the claim states. -/
theorem keywordScore_uncapped_at_six_matches :
    keywordScore
      [KwMatch.concern "hopeless", KwMatch.concern "worthless",
       KwMatch.concern "lonely", KwMatch.concern "isolated",
       KwMatch.concern "empty", KwMatch.concern "numb"] = 120 ∧
    keywordScore
      [KwMatch.concern "hopeless", KwMatch.concern "worthless",
       KwMatch.concern "lonely", KwMatch.concern "isolated",
       KwMatch.concern "empty", KwMatch.concern "numb"] ≠ 100 := by
  constructor <;> norm_num [keywordScore, KwMatch.isCritical]

/-- C4 counterexample: four scores leave a single older score, yet the
source only returns false when the older window is empty, so this
conversation is reported as escalating even though fewer than three
older messages exist. -/
theorem escalation_true_with_one_older_message :
    detectEscalation [0, 10, 10, 10] = true := by
  have hr : recentWindow [0, 10, 10, 10] = [10, 10, 10] := rfl
  have ho : olderWindow [0, 10, 10, 10] = [0] := rfl
  simp only [detectEscalation, hr, ho]
  norm_num

/-- C5 counterexample: with sentiments 1, 1/2, 1/2, 1/2 the source
divides the older sum 1 by the constant 3 and reports improving, while
the mean over the one actual older message is 1 and the recent mean 1/2
is below 0.8 times it, so the claim predicts declining. -/
theorem sentimentTrend_uses_constant_divisor :
    analyzeSentimentTrend [1, 1 / 2, 1 / 2, 1 / 2] = Trend.improving ∧
      ((1 : ℚ) / 2 + 1 / 2 + 1 / 2) / 3 < (8 / 10) * ((1 : ℚ) / 1) := by
  have hr : recentWindow [1, 1 / 2, 1 / 2, 1 / 2] = [1 / 2, 1 / 2, 1 / 2] := rfl
  have ho : olderWindow [1, 1 / 2, 1 / 2, 1 / 2] = [1] := rfl
  constructor
  · simp only [analyzeSentimentTrend, hr, ho]
    norm_num
  · norm_num

/-- C7 counterexample: on an empty conversation the source computes
0/0, which is NaN, so the conversation-level score is not a value of
[0, 100]; none models that NaN. -/
theorem overallRiskScore_empty_is_nan :
    overallRiskScore [] = none := rfl

/-- C8: requiresAlert is true exactly when the risk level is high or
critical or the selfHarm flag is set. -/
theorem requiresAlert_iff (p : PerspectiveResult) (o : OpenAIResult)
    (kw : List KwMatch) (s : ℚ) :
    (analyzeMessage p o kw s).requiresAlert = true ↔
      ((analyzeMessage p o kw s).riskLevel = RiskLevel.high ∨
       (analyzeMessage p o kw s).riskLevel = RiskLevel.critical ∨
       (analyzeMessage p o kw s).flags.selfHarm = true) := by
  simp only [analyzeMessage, Bool.or_eq_true, beq_iff_eq]
  tauto

/-- C9: the suggested actions are the concatenation, in the fixed
source order and without deduplication, of the crisis block when
selfHarm is set, the violence block when violence is set, the
mental-health block when mentalHealthConcern is set, and the monitoring
block when the risk level is critical or high; the length is the sum of
the lengths of the triggered blocks. -/
theorem suggestedActions_blocks (flags : Flags) (level : RiskLevel) :
    generateSuggestedActions flags level =
      (if flags.selfHarm then crisisActions else []) ++
        (if flags.violence then violenceActions else []) ++
        (if flags.mentalHealthConcern then mentalHealthActions else []) ++
        (if level = RiskLevel.critical ∨ level = RiskLevel.high
          then monitoringActions else []) ∧
    (generateSuggestedActions flags level).length =
      (if flags.selfHarm then 3 else 0) + (if flags.violence then 2 else 0) +
        (if flags.mentalHealthConcern then 2 else 0) +
        (if level = RiskLevel.critical ∨ level = RiskLevel.high then 2 else 0) := by
  obtain ⟨t, sh, v, h, sx, m⟩ := flags
  cases sh <;> cases v <;> cases m <;> cases level <;>
    simp [generateSuggestedActions, crisisActions, violenceActions,
      mentalHealthActions, monitoringActions]

/-- Helper: determineRiskLevel returns critical whenever the critical
flag list has a member. -/
theorem determineRiskLevel_of_mem (score : ℚ) (flags : List String)
    (c : String) (hc : c ∈ flags) :
    determineRiskLevel score flags = RiskLevel.critical := by
  have hlen : 0 < flags.length := List.length_pos.mpr (List.ne_nil_of_mem hc)
  simp [determineRiskLevel, hlen]

/-- C2: under the adapter contract that criticalFlags are the reported
categories filtered by the fixed critical-category list, any reported
critical category forces riskLevel critical, whatever the numeric
composite is. -/
theorem critical_category_forces_critical_level (p : PerspectiveResult)
    (o : OpenAIResult) (kw : List KwMatch) (s : ℚ)
    (hadapter : o.criticalFlags = criticalFlagsOf o.categories)
    (c : String) (hc : c ∈ o.categories) (hcrit : c ∈ criticalCategories) :
    (analyzeMessage p o kw s).riskLevel = RiskLevel.critical := by
  have hmem : c ∈ o.criticalFlags := by
    rw [hadapter]
    exact List.mem_filter.mpr ⟨hc, by simpa using hcrit⟩
  simp only [analyzeMessage]
  exact determineRiskLevel_of_mem _ _ c hmem

/-- C2 witness: the category sexual/minors reported with score 0.3
forces riskLevel critical although the composite 0.4·30 + 0.1·50 = 17
is far below 80. -/
theorem critical_category_forces_critical_level_witness :
    (analyzeMessage ⟨0, []⟩ ⟨["sexual/minors"], [3 / 10], ["sexual/minors"]⟩
      [] 0).riskLevel = RiskLevel.critical :=
  critical_category_forces_critical_level ⟨0, []⟩
    ⟨["sexual/minors"], [3 / 10], ["sexual/minors"]⟩ [] 0 (by decide)
    "sexual/minors" (by decide) (by decide)

/-- C3 amended: the keyword component is 100 when some match carries
the critical tag, and otherwise 20 per match with no cap. -/
theorem keywordScore_characterization (kws : List KwMatch) :
    (kws.any KwMatch.isCritical = true → keywordScore kws = 100) ∧
    (kws.any KwMatch.isCritical = false →
      keywordScore kws = (kws.length : ℚ) * 20) := by
  constructor <;> intro h <;> simp [keywordScore, h]

/-- C3 witness: a single critical match gives keyword component 100. -/
theorem keywordScore_characterization_witness :
    keywordScore [KwMatch.critical "suicide"] = 100 :=
  (keywordScore_characterization [KwMatch.critical "suicide"]).1 rfl

/-- C4 amended: escalation is reported exactly when at least four
scores are present (so the older window, of size between one and three,
is nonempty) and the mean of the last three exceeds 1.3 times the mean
of the older window. -/
theorem detectEscalation_characterization (scores : List ℚ) :
    detectEscalation scores = true ↔
      4 ≤ scores.length ∧
        (olderWindow scores).sum / ((olderWindow scores).length : ℚ) * (13 / 10) <
          (recentWindow scores).sum / ((recentWindow scores).length : ℚ) := by
  have holen : (olderWindow scores).length =
      min (scores.length - 3) scores.length - (scores.length - 6) := by
    simp [olderWindow, List.length_take, List.length_drop]
  simp only [detectEscalation]
  split_ifs with h1 h2
  · simp only [Bool.false_eq_true, false_iff]
    rintro ⟨h4, -⟩
    omega
  · simp only [Bool.false_eq_true, false_iff]
    rintro ⟨h4, -⟩
    omega
  · simp only [decide_eq_true_eq]
    constructor
    · intro hin
      exact ⟨by omega, hin⟩
    · exact fun h => h.2

/-- C4 witness: six flat scores followed by a jump escalate. -/
theorem detectEscalation_characterization_witness :
    detectEscalation [0, 0, 0, 5, 5, 5] = true := by
  refine (detectEscalation_characterization [0, 0, 0, 5, 5, 5]).mpr ⟨by norm_num, ?_⟩
  rw [show olderWindow [0, 0, 0, 5, 5, 5] = [0, 0, 0] from rfl,
    show recentWindow [0, 0, 0, 5, 5, 5] = [5, 5, 5] from rfl]
  norm_num

/-- C5 amended: below three sentiments the trend is stable; from three
on, both window sums are divided by the constant 3 — not by the actual
number of older messages — and compared against the 1.2 and 0.8
factors. -/
theorem analyzeSentimentTrend_characterization (ss : List ℚ) :
    (ss.length < 3 → analyzeSentimentTrend ss = Trend.stable) ∧
    (3 ≤ ss.length →
      analyzeSentimentTrend ss =
        (if (olderWindow ss).sum / 3 * (12 / 10) < (recentWindow ss).sum / 3
          then Trend.improving
          else if (recentWindow ss).sum / 3 < (olderWindow ss).sum / 3 * (8 / 10)
            then Trend.declining
            else Trend.stable)) := by
  constructor
  · intro h
    simp [analyzeSentimentTrend, h]
  · intro h
    simp only [analyzeSentimentTrend]
    rw [if_neg (by omega)]

/-- C5 witness: two sentiments are below the window threshold, so the
trend is stable. -/
theorem analyzeSentimentTrend_characterization_witness :
    analyzeSentimentTrend [1, 1] = Trend.stable :=
  (analyzeSentimentTrend_characterization [1, 1]).1 (by decide)

/-- C6: with no critical flag, the risk level is the step function with
thresholds 40, 60 and 80, and it is monotone in the score. -/
theorem riskLevel_step_monotone (s t : ℚ) (hst : s ≤ t) :
    determineRiskLevel s [] =
      (if s < 40 then RiskLevel.low
       else if s < 60 then RiskLevel.medium
       else if s < 80 then RiskLevel.high
       else RiskLevel.critical) ∧
    RiskLevel.rank (determineRiskLevel s []) ≤
      RiskLevel.rank (determineRiskLevel t []) := by
  constructor
  · simp only [determineRiskLevel, List.length_nil, lt_self_iff_false, false_or]
    split_ifs <;> first | rfl | (exfalso; linarith)
  · simp only [determineRiskLevel, List.length_nil, lt_self_iff_false, false_or]
    split_ifs <;> norm_num [RiskLevel.rank] <;> linarith

/-- C6 witness: score 39 maps to low and its rank is at most the rank
at score 80. -/
theorem riskLevel_step_monotone_witness :
    determineRiskLevel 39 [] = RiskLevel.low ∧
      RiskLevel.rank (determineRiskLevel 39 []) ≤
        RiskLevel.rank (determineRiskLevel 80 []) := by
  have h := riskLevel_step_monotone 39 80 (by norm_num)
  refine ⟨?_, h.2⟩
  rw [h.1, if_pos (by norm_num : (39 : ℚ) < 40)]

/-- Helper: the clamp at the end of calculateRiskScore lands in
[0, 100], also on -Infinity. -/
theorem jsClamp0100_bounds (x : JSNum) : 0 ≤ jsClamp0100 x ∧ jsClamp0100 x ≤ 100 := by
  cases x with
  | negInf => norm_num [jsClamp0100]
  | num q =>
    simp only [jsClamp0100]
    exact ⟨le_min (by norm_num) (le_max_left 0 q), min_le_left _ _⟩

/-- C7 amended: the per-message risk score is always in [0, 100], the
sentiment estimate is always in [-1, 1], and for a conversation with at
least one message whose per-message scores are in [0, 100] the
conversation-level mean is a finite value of [0, 100]; the empty
conversation is excluded because there the source divides 0 by 0. -/
theorem score_bounds (p : PerspectiveResult) (o : OpenAIResult) (kw : List KwMatch)
    (s : ℚ) (contains : String → Bool) (scores : List ℚ) (hne : scores ≠ [])
    (hb : ∀ x ∈ scores, 0 ≤ x ∧ x ≤ 100) :
    (0 ≤ (analyzeMessage p o kw s).riskScore ∧
      (analyzeMessage p o kw s).riskScore ≤ 100) ∧
    (-1 ≤ analyzeSentiment contains ∧ analyzeSentiment contains ≤ 1) ∧
    ∃ q, overallRiskScore scores = some q ∧ 0 ≤ q ∧ q ≤ 100 := by
  refine ⟨?_, ?_, ?_⟩
  · simp only [analyzeMessage, calculateRiskScore]
    exact jsClamp0100_bounds _
  · simp only [analyzeSentiment]
    exact ⟨le_max_left _ _, max_le (by norm_num) (min_le_left _ _)⟩
  · have hlen : scores.length ≠ 0 := by simpa using hne
    have hpos : (0 : ℚ) < scores.length := by
      exact_mod_cast Nat.pos_of_ne_zero hlen
    refine ⟨scores.sum / scores.length, by simp [overallRiskScore, hlen], ?_, ?_⟩
    · exact div_nonneg (List.sum_nonneg fun x hx => (hb x hx).1) hpos.le
    · rw [div_le_iff₀ hpos]
      have hsum := List.sum_le_card_nsmul scores 100 fun x hx => (hb x hx).2
      simpa [nsmul_eq_mul, mul_comm] using hsum

/-- C7 witness: a one-message conversation with score 50 has mean 50,
inside the bounds. -/
theorem score_bounds_witness :
    ∃ q, overallRiskScore [50] = some q ∧ 0 ≤ q ∧ q ≤ 100 :=
  (score_bounds ⟨0, []⟩ ⟨[], [0], []⟩ [] 0 (fun _ => false) [50]
    (by simp) (by intro x hx; rw [List.mem_singleton] at hx; subst hx; norm_num)).2.2

/-- C10: under the adapter contract that criticalFlags are the reported
categories filtered by the fixed critical-category list, a set selfHarm
flag forces riskLevel critical — both self-harm categories that set the
flag are in that list — and therefore requiresAlert holds exactly when
the risk level is high or critical, making the selfHarm disjunct
redundant. -/
theorem selfHarm_implies_critical_under_adapter_contract (p : PerspectiveResult)
    (o : OpenAIResult) (kw : List KwMatch) (s : ℚ)
    (hadapter : o.criticalFlags = criticalFlagsOf o.categories) :
    ((analyzeMessage p o kw s).flags.selfHarm = true →
      (analyzeMessage p o kw s).riskLevel = RiskLevel.critical) ∧
    ((analyzeMessage p o kw s).requiresAlert = true ↔
      ((analyzeMessage p o kw s).riskLevel = RiskLevel.high ∨
       (analyzeMessage p o kw s).riskLevel = RiskLevel.critical)) := by
  have hkey : o.categories.contains "self-harm/intent" = true ∨
      o.categories.contains "self-harm/instructions" = true →
      determineRiskLevel (calculateRiskScore p.highestScore o.scoreValues kw s)
        o.criticalFlags = RiskLevel.critical := by
    intro hsh
    have hex : ∃ c, c ∈ o.categories ∧ c ∈ criticalCategories := by
      rcases hsh with h | h
      · exact ⟨"self-harm/intent", by simpa using h, by decide⟩
      · exact ⟨"self-harm/instructions", by simpa using h, by decide⟩
    obtain ⟨c, hc, hcrit⟩ := hex
    refine determineRiskLevel_of_mem _ _ c ?_
    rw [hadapter]
    exact List.mem_filter.mpr ⟨hc, by simpa using hcrit⟩
  constructor
  · intro hsh
    simp only [analyzeMessage] at hsh ⊢
    rw [Bool.or_eq_true] at hsh
    exact hkey hsh
  · simp only [analyzeMessage, Bool.or_eq_true, beq_iff_eq]
    constructor
    · rintro ((h | h) | h)
      · exact Or.inr h
      · exact Or.inl h
      · exact Or.inr (hkey h)
    · rintro (h | h)
      · exact Or.inl (Or.inr h)
      · exact Or.inl (Or.inl h)

/-- C10 witness: a reported self-harm/intent category sets the selfHarm
flag and the risk level is critical. -/
theorem selfHarm_implies_critical_witness :
    (analyzeMessage ⟨0, []⟩ ⟨["self-harm/intent"], [0], ["self-harm/intent"]⟩
      [] 0).riskLevel = RiskLevel.critical :=
  (selfHarm_implies_critical_under_adapter_contract ⟨0, []⟩
    ⟨["self-harm/intent"], [0], ["self-harm/intent"]⟩ [] 0 (by decide)).1 (by decide)

end SafeMind
